import Mathlib

/-!
# Shallow embedding of the Express news/content API (`src/server.js`)

The server fronts a MySQL store and a process-local `NodeCache`.  We embed:

* the store as explicit lists of rows (`DB`),
* the cache as an association structure (`Cache`) with the three key families
  the claims mention (`all_articles`, `article_<paddedId>`, `visuals_<id>`),
* each HTTP handler as a pure function from store/cache/request to the new
  store, the new cache and an explicit response value.

JavaScript idioms are modelled explicitly: `x || d` with the falsiness of
`""` and `0`, `padStart`, `trim`, ASCII `toLowerCase`, and MySQL's coercion
of a string parameter compared against an `INT` column (modelled for
non-empty all-digit literals, the only identifiers the routes receive).

Express dispatches a request to the first registered route whose path
matches; `server.js` registers `PUT /api/articles/:id` twice (lines 241 and
583), so the first, unguarded handler is the one that runs.
-/

namespace NewsServer

/-- JS `x || d` for strings: the empty string is falsy. -/
def jsOr (s d : String) : String := if s = "" then d else s

/-- JS `x || d` for integer-valued expressions: `0` is falsy. -/
def jsOrInt (x d : Int) : Int := if x = 0 then d else x

/-- JS `x || null` for an optional string: `undefined`, `null` and `""` all
yield `null`. -/
def jsOrNullStr (o : Option String) : Option String :=
  if o = some "" then none else o

/-- JS `String.prototype.trim`: drop whitespace from both ends. -/
def strTrim (s : String) : String :=
  ⟨((s.data.dropWhile Char.isWhitespace).reverse.dropWhile Char.isWhitespace).reverse⟩

/-- JS `String.prototype.padStart n c`: left-pad with `c` up to length `n`
(no change when the string is already long enough). -/
def padStart (s : String) (n : Nat) (c : Char) : String :=
  ⟨List.replicate (n - s.length) c ++ s.data⟩

/-- JS `String.prototype.toLowerCase`, restricted to ASCII (the
case-insensitive comparisons in the routes are on ASCII identifiers);
also models MySQL `LOWER` on the same data. -/
def strToLower (s : String) : String := ⟨s.data.map Char.toLower⟩

/-- MySQL coercion of a string parameter for comparison against an `INT`
column: a non-empty all-digit literal denotes its numeric value; any other
string is modelled as matching no row (the article routes only receive
numeric identifiers). -/
def sqlToNat (s : String) : Option Nat :=
  if !s.data.isEmpty && s.data.all Char.isDigit then
    some (s.data.foldl (fun n c => n * 10 + (c.toNat - 48)) 0)
  else none

/-- `WHERE article_id = ?` with a string parameter against the numeric key. -/
def sqlIdMatch (param : String) (aid : Nat) : Bool :=
  sqlToNat param = some aid

/-! ## Data model: store rows -/

/-- A row of the `articles` table. -/
structure Article where
  article_id : Nat
  headline_title : String
  short_desc : String
  article_content : String
  city : String
  author : String
  date : Option String
  category : String
  likes : Int
deriving DecidableEq

/-- A row of the `visuallist` table. -/
structure Visual where
  article_id : String
  name : String
  description : String
  file_type : String
  css_class : String
  filepath : String
deriving DecidableEq

/-- A row of the `users` table. -/
structure User where
  id : Nat
  username : String
  email : String
  password : String
  country : String
  firstname : String
  lastname : String
  role : String
  biography : Option String
deriving DecidableEq

/-- The relational store: articles, visuals, users (with the
auto-increment counter for user ids), and the per-user engagement tables
`user_interests`, `user_dislikes`, `user_subscriptions`,
`user_keyword_reads`. -/
structure DB where
  articles : List Article
  visuals : List Visual
  users : List User
  nextUserId : Nat
  interests : List (Nat × String)
  dislikes : List (Nat × String)
  subscriptions : List (Nat × String)
  keywordReads : List ((Nat × String) × Nat)
deriving DecidableEq

/-! ## Cache -/

/-- Association-list lookup by string key (`cache.get`). -/
def lookupA {α : Type} : List (String × α) → String → Option α
  | [], _ => none
  | p :: t, k => if p.1 = k then some p.2 else lookupA t k

/-- Association-list deletion of a key (`cache.del`). -/
def eraseA {α : Type} : List (String × α) → String → List (String × α)
  | [], _ => []
  | p :: t, k => if p.1 = k then eraseA t k else p :: eraseA t k

/-- Association-list insertion/replacement (`cache.set`). -/
def setA {α : Type} (l : List (String × α)) (k : String) (v : α) : List (String × α) :=
  (k, v) :: eraseA l k

/-- The `NodeCache` instance, restricted to the key families the claims
mention: `all_articles`, `article_<paddedId>`, `visuals_<id>`.  TTL expiry
is not modelled (no claim depends on time). -/
structure Cache where
  allArticles : Option (List Article)
  articleById : List (String × Article)
  visualsById : List (String × List Visual)
deriving DecidableEq

def emptyCache : Cache := ⟨none, [], []⟩

/-! ## Response shapes -/

/-- Shape produced by `mapArticleFields` in `server.js`. -/
structure MappedArticle where
  id : String
  title : String
  description : String
  content : String
  city : String
  author : String
  date : String
  category : String
  likes : Int
deriving DecidableEq

/-- `mapArticleFields`: map a DB article row to the frontend field shape,
with the JS `||` defaults of the source. -/
def mapArticleFields (row : Article) : MappedArticle where
  id := jsOr (padStart (toString row.article_id) 3 '0') "UNKNOWN"
  title := jsOr row.headline_title "Untitled Article"
  description := jsOr row.short_desc ""
  content := jsOr row.article_content "Content not available"
  city := jsOr row.city ""
  author := jsOr row.author ""
  date := jsOr (row.date.getD "") ""
  category := jsOr row.category ""
  likes := jsOrInt row.likes 0

/-- Shape produced by `mapVisualFields` for one row. -/
structure MappedVisual where
  name : String
  description : String
  file_type : String
  css_class : String
  filepath : String
deriving DecidableEq

/-- `mapVisualFields`: map visual rows to the frontend shape. -/
def mapVisualFields (rows : List Visual) : List MappedVisual :=
  rows.map (fun row =>
    { name := jsOr row.name "No Name"
      description := jsOr row.description ""
      file_type := jsOr row.file_type ""
      css_class := jsOr row.css_class ""
      filepath := jsOr row.filepath "" })

/-! ## Article read path -/

/-- Response of `GET /api/articles`: status plus the raw rows served. -/
structure ListResp where
  status : Nat
  body : List Article
deriving DecidableEq

/-- `GET /api/articles` (line 142): serve `all_articles` from cache if
present, else scan the store and repopulate the aggregate key. -/
def getAllArticles (db : DB) (cache : Cache) : Cache × ListResp :=
  match cache.allArticles with
  | some rows => (cache, ⟨200, rows⟩)
  | none => ({ cache with allArticles := some db.articles }, ⟨200, db.articles⟩)

/-- Response of `GET /api/articles/:id`. -/
inductive ArticleResp where
  | found (a : MappedArticle)
  | notFound
deriving DecidableEq

/-- `GET /api/articles/:id` (line 169): trim and zero-pad the identifier,
probe `article_<paddedId>`, fall back to the store on miss (404 when no
row), repopulating the per-id key. -/
def getArticleById (db : DB) (cache : Cache) (idStr : String) : Cache × ArticleResp :=
  let articleId := padStart (strTrim idStr) 3 '0'
  match lookupA cache.articleById ("article_" ++ articleId) with
  | some a => (cache, .found (mapArticleFields a))
  | none =>
    match db.articles.filter (fun a => sqlIdMatch articleId a.article_id) with
    | [] => (cache, .notFound)
    | a :: _ =>
      ({ cache with articleById := setA cache.articleById ("article_" ++ articleId) a },
       .found (mapArticleFields a))

/-! ## Article write path -/

/-- Request body of `PUT /api/articles/:id` (absent JSON fields are
`none`; `userId` is read only by the second, permission-checked
registration of the route). -/
structure ArticleBody where
  title : Option String
  description : Option String
  content : Option String
  city : Option String
  author : Option String
  date : Option String
  category : Option String
  likes : Option Int
  userId : Option Nat
deriving DecidableEq

/-- The `UPDATE articles SET ... WHERE article_id = ?` row transformation,
with the JS `|| ""` / `|| null` / `|| 0` defaults of the source. -/
def applyBody (b : ArticleBody) (a : Article) : Article :=
  { a with
    headline_title := b.title.getD ""
    short_desc := b.description.getD ""
    article_content := b.content.getD ""
    city := b.city.getD ""
    author := b.author.getD ""
    date := jsOrNullStr b.date
    category := b.category.getD ""
    likes := b.likes.getD 0 }

/-- Status-plus-message response used by the update/delete routes. -/
structure MsgResp where
  status : Nat
  message : String
deriving DecidableEq

/-- First registered `PUT /api/articles/:id` (line 241): run the UPDATE,
404 when zero rows were affected, otherwise delete `all_articles` and
`article_<paddedId>` from the cache and answer 200. -/
def putArticle1 (db : DB) (cache : Cache) (idStr : String) (b : ArticleBody) :
    DB × Cache × MsgResp :=
  let matched := db.articles.countP (fun a => sqlIdMatch idStr a.article_id)
  if matched = 0 then (db, cache, ⟨404, "Article not found"⟩)
  else
    let articles' := db.articles.map
      (fun a => if sqlIdMatch idStr a.article_id then applyBody b a else a)
    let paddedId := padStart idStr 3 '0'
    let cache' := { cache with
      allArticles := none
      articleById := eraseA cache.articleById ("article_" ++ paddedId) }
    ({ db with articles := articles' }, cache', ⟨200, "Article updated successfully"⟩)

/-- Response of the second registered `PUT /api/articles/:id` (line 583).
Its allow branch is an empty stub in the source (comments only): no store
write happens and no response is sent, modelled as `stubAllow`. -/
inductive Put2Resp where
  | forbidden
  | noPermission
  | stubAllow
deriving DecidableEq

/-- Second registered `PUT /api/articles/:id` (line 583): 403 when the
acting-user identifier is missing or unknown; the update is allowed only
for role `admin`, or role `editor` when the article's recorded author
equals the acting user's username; otherwise 403 `No permission`. -/
def putArticle2 (db : DB) (cache : Cache) (idStr : String) (b : ArticleBody) :
    DB × Cache × Put2Resp :=
  match b.userId with
  | none => (db, cache, .forbidden)
  | some uid =>
    if uid = 0 then (db, cache, .forbidden)
    else
      match db.users.find? (fun u => u.id = uid) with
      | none => (db, cache, .forbidden)
      | some u =>
        let article? := db.articles.find? (fun a => sqlIdMatch idStr a.article_id)
        if u.role = "admin" ∨
            (u.role = "editor" ∧ article?.any (fun a => a.author = u.username)) then
          (db, cache, .stubAllow)
        else (db, cache, .noPermission)

/-- The route that actually serves `PUT /api/articles/:id`: Express
dispatches to the first matching registration, i.e. `putArticle1`; the
permission-checked duplicate registration never runs. -/
def putArticleRoute (db : DB) (cache : Cache) (idStr : String) (b : ArticleBody) :
    DB × Cache × MsgResp :=
  putArticle1 db cache idStr b

/-- `DELETE /api/articles/:id` (line 285): run the DELETE, 404 when zero
rows were affected, otherwise delete `all_articles`, `article_<paddedId>`
and `visuals_<paddedId>` from the cache and answer 200. -/
def deleteArticle (db : DB) (cache : Cache) (idStr : String) :
    DB × Cache × MsgResp :=
  let matched := db.articles.countP (fun a => sqlIdMatch idStr a.article_id)
  if matched = 0 then (db, cache, ⟨404, "Article not found"⟩)
  else
    let articles' := db.articles.filter (fun a => !sqlIdMatch idStr a.article_id)
    let paddedId := padStart idStr 3 '0'
    let cache' := { cache with
      allArticles := none
      articleById := eraseA cache.articleById ("article_" ++ paddedId)
      visualsById := eraseA cache.visualsById ("visuals_" ++ paddedId) }
    ({ db with articles := articles' }, cache', ⟨200, "Article deleted successfully"⟩)

/-! ## Media read path -/

/-- Response of `GET /api/media/:id`. -/
inductive MediaResp where
  | badRequest
  | okList (l : List MappedVisual)
deriving DecidableEq

/-- HTTP status of a media response. -/
def MediaResp.status : MediaResp → Nat
  | .badRequest => 400
  | .okList _ => 200

/-- `GET /api/media/:id` (line 800): 400 when the trimmed identifier is
empty; otherwise serve `visuals_<id>` from cache when present, else query
the store, cache the (possibly empty) row list and serve it.  The source
has no 404 branch on this route. -/
def getMedia (db : DB) (cache : Cache) (idStr : String) : Cache × MediaResp :=
  let articleId := strTrim idStr
  if articleId = "" then (cache, .badRequest)
  else
    match lookupA cache.visualsById ("visuals_" ++ articleId) with
    | some visuals => (cache, .okList (mapVisualFields visuals))
    | none =>
      let rows := db.visuals.filter (fun v => v.article_id = articleId)
      ({ cache with visualsById := setA cache.visualsById ("visuals_" ++ articleId) rows },
       .okList (mapVisualFields rows))

/-! ## Registration -/

/-- Request body of `POST /api/register` (absent fields are `""` / `none`). -/
structure RegisterReq where
  username : String
  email : String
  password : String
  country : String
  firstName : String
  lastName : String
  biography : Option String
deriving DecidableEq

/-- The fixed symbol set of the password policy: `@$!%*?&`. -/
def isSpecialChar (c : Char) : Bool :=
  c = '@' || c = '$' || c = '!' || c = '%' || c = '*' || c = '?' || c = '&'

/-- A character accepted by the regex character class of the password
policy: letters, digits, and the fixed symbol set. -/
def isAllowedPwChar (c : Char) : Bool :=
  c.isAlpha || c.isDigit || isSpecialChar c

/-- The `passwordRegex` test of `POST /api/register`: at least one
lowercase, one uppercase, one digit, one symbol from the fixed set, total
length at least 8, and every character drawn from the fixed class. -/
def passwordOk (p : String) : Bool :=
  p.data.any Char.isLower && p.data.any Char.isUpper && p.data.any Char.isDigit &&
    p.data.any isSpecialChar && decide (8 ≤ p.data.length) && p.data.all isAllowedPwChar

/-- Opaque stand-in for the one-way bcrypt hash. -/
def bcryptHash (p : String) : String := "bcrypt(" ++ p ++ ")"

/-- Response of `POST /api/register`. -/
inductive RegisterResp where
  | missingFields
  | badPassword
  | duplicate (error : String) (usernameExists emailExists : Bool)
  | created (userId : Nat) (role : String)
deriving DecidableEq

/-- HTTP status of a registration response. -/
def RegisterResp.status : RegisterResp → Nat
  | .created _ _ => 201
  | _ => 400

/-- `SELECT * FROM users WHERE LOWER(username) = ? OR LOWER(email) = ?`
with the lowercased request values. -/
def dupFilter (db : DB) (r : RegisterReq) : List User :=
  db.users.filter (fun u =>
    strToLower u.username = strToLower r.username ∨
    strToLower u.email = strToLower r.email)

/-- The first-user rule: `SELECT COUNT(*) FROM users` equal to zero makes
the new account an admin, otherwise a plain user. -/
def assignedRole (db : DB) : String :=
  if db.users.length = 0 then "admin" else "user"

/-- The row the registration INSERT stores. -/
def newUserRow (db : DB) (r : RegisterReq) : User :=
  { id := db.nextUserId
    username := r.username
    email := strToLower r.email
    password := bcryptHash r.password
    country := r.country
    firstname := r.firstName
    lastname := r.lastName
    role := assignedRole db
    biography := jsOrNullStr r.biography }

/-- `POST /api/register` (line 355): require all six fields, test the
password regex, reject case-insensitive username/email duplicates with the
two collision flags, assign role `admin` to the very first user and
`user` to everyone else, and insert the new row. -/
def register (db : DB) (r : RegisterReq) : DB × RegisterResp :=
  if r.username = "" ∨ r.email = "" ∨ r.password = "" ∨ r.country = "" ∨
      r.firstName = "" ∨ r.lastName = "" then
    (db, .missingFields)
  else if !passwordOk r.password then (db, .badPassword)
  else if 0 < (dupFilter db r).length then
    (db, .duplicate
      (if (dupFilter db r).any (fun u => strToLower u.username = strToLower r.username)
        then "Username already exists" else "Email already exists")
      ((dupFilter db r).any (fun u => strToLower u.username = strToLower r.username))
      ((dupFilter db r).any (fun u => strToLower u.email = strToLower r.email)))
  else
    ({ db with users := db.users ++ [newUserRow db r], nextUserId := db.nextUserId + 1 },
     .created db.nextUserId (assignedRole db))

/-! ## Likes -/

/-- Response of `POST /api/articles/:id/like`. -/
inductive LikeResp where
  | badRequest
  | notFound
  | okLikes (likes : Int)
deriving DecidableEq

/-- The like handler's count computation: `likes += 1` on `like`,
`likes -= 1` on `unlike` only when the count is positive. -/
def likeNewCount (action : String) (likes : Int) : Int :=
  if action = "like" then likes + 1
  else if action = "unlike" ∧ 0 < likes then likes - 1
  else likes

/-- `POST /api/articles/:id/like` (line 1093): read the current like count
of the first matching row (`parseInt(...) || 0`), compute the new count via
`likeNewCount`, write it back and invalidate `all_articles` and
`article_<id>`. -/
def likeArticle (db : DB) (cache : Cache) (idStr : String) (action : String) :
    DB × Cache × LikeResp :=
  let articleId := padStart (strTrim idStr) 3 '0'
  if articleId = "" ∨ ¬(action = "like" ∨ action = "unlike") then
    (db, cache, .badRequest)
  else
    match db.articles.filter (fun a => sqlIdMatch articleId a.article_id) with
    | [] => (db, cache, .notFound)
    | a :: _ =>
      let likes' := likeNewCount action (jsOrInt a.likes 0)
      let articles' := db.articles.map
        (fun x => if sqlIdMatch articleId x.article_id then { x with likes := likes' } else x)
      let cache' := { cache with
        allArticles := none
        articleById := eraseA cache.articleById ("article_" ++ articleId) }
      ({ db with articles := articles' }, cache', .okLikes likes')

/-- Run a sequence of like/unlike requests (identifier, action). -/
def processLikes (db : DB) (cache : Cache) (reqs : List (String × String)) : DB × Cache :=
  reqs.foldl (fun s r => let t := likeArticle s.1 s.2 r.1 r.2; (t.1, t.2.1)) (db, cache)

/-- The like count the store holds for the first row matching a padded
identifier. -/
def storedLikes (db : DB) (paddedId : String) : Option Int :=
  ((db.articles.filter (fun a => sqlIdMatch paddedId a.article_id)).head?).map (·.likes)

/-! ## Membership sets and the engagement counter -/

/-- Response of the simple membership / tracking routes. -/
inductive SimpleResp where
  | badRequest
  | success
deriving DecidableEq

/-- `INSERT IGNORE` into a (user, topic) membership set: a no-op when the
pair is already present. -/
def insertIgnore (l : List (Nat × String)) (x : Nat × String) : List (Nat × String) :=
  if x ∈ l then l else l ++ [x]

/-- `POST /api/user/interests` (line 832). -/
def postInterest (db : DB) (userId : Nat) (interest : String) : DB × SimpleResp :=
  if userId = 0 ∨ interest = "" then (db, .badRequest)
  else ({ db with interests := insertIgnore db.interests (userId, interest) }, .success)

/-- `POST /api/user/dislikes` (line 868). -/
def postDislike (db : DB) (userId : Nat) (topic : String) : DB × SimpleResp :=
  if userId = 0 ∨ topic = "" then (db, .badRequest)
  else ({ db with dislikes := insertIgnore db.dislikes (userId, topic) }, .success)

/-- `POST /api/user/subscriptions` (line 904). -/
def postSubscription (db : DB) (userId : Nat) (topic : String) : DB × SimpleResp :=
  if userId = 0 ∨ topic = "" then (db, .badRequest)
  else ({ db with subscriptions := insertIgnore db.subscriptions (userId, topic) }, .success)

/-- `INSERT ... ON DUPLICATE KEY UPDATE count = count + 1` on
`user_keyword_reads` (the (user, keyword) pair is the unique key):
increment the existing counter, else create it at 1. -/
def upsertRead : List ((Nat × String) × Nat) → (Nat × String) →
    List ((Nat × String) × Nat)
  | [], key => [(key, 1)]
  | p :: t, key => if p.1 = key then (p.1, p.2 + 1) :: t else p :: upsertRead t key

/-- `SELECT count FROM user_keyword_reads WHERE user_id=? AND keyword=?`. -/
def readCountL : List ((Nat × String) × Nat) → (Nat × String) → Option Nat
  | [], _ => none
  | p :: t, key => if p.1 = key then some p.2 else readCountL t key

/-- One loop iteration of `POST /api/user/read-article` (line 970) for a
single keyword: increment the counter, re-read it, and when the re-read
value equals exactly 3, `INSERT IGNORE` the keyword into the user's
interests. -/
def readOneKeyword (db : DB) (userId : Nat) (kw : String) : DB :=
  let kr := upsertRead db.keywordReads (userId, kw)
  let interests' :=
    match readCountL kr (userId, kw) with
    | some c => if c = 3 then insertIgnore db.interests (userId, kw) else db.interests
    | none => db.interests
  { db with keywordReads := kr, interests := interests' }

/-- `POST /api/user/read-article` (line 970): validate the input, then run
the per-keyword loop; `none` for `keywords` models a non-array body. -/
def readArticlePost (db : DB) (userId : Nat) (articleId : String)
    (keywords : Option (List String)) : DB × SimpleResp :=
  if userId = 0 ∨ articleId = "" ∨ keywords.isNone then (db, .badRequest)
  else ((keywords.getD []).foldl (fun d kw => readOneKeyword d userId kw) db, .success)

/-- The count the store holds for a (user, keyword) pair. -/
def readCount (db : DB) (u : Nat) (k : String) : Option Nat :=
  readCountL db.keywordReads (u, k)

/-! ## Claim properties -/

/-- C3, update half: whenever `PUT /api/articles/x` succeeds, an immediate
`GET /api/articles/x` against the resulting store and cache serves the
post-mutation row (whose fields are the body-derived values the UPDATE
wrote), not a stale cached copy. -/
def PutCoherence (db : DB) (cache : Cache) (x : String) (b : ArticleBody) : Prop :=
  (putArticleRoute db cache x b).2.2.status = 200 →
    ∃ a rest,
      (putArticleRoute db cache x b).1.articles.filter
          (fun r => sqlIdMatch (padStart x 3 '0') r.article_id) = a :: rest ∧
      (getArticleById (putArticleRoute db cache x b).1
          (putArticleRoute db cache x b).2.1 x).2 = .found (mapArticleFields a) ∧
      a.headline_title = b.title.getD "" ∧
      a.short_desc = b.description.getD "" ∧
      a.article_content = b.content.getD "" ∧
      a.city = b.city.getD "" ∧
      a.author = b.author.getD "" ∧
      a.date = jsOrNullStr b.date ∧
      a.category = b.category.getD "" ∧
      a.likes = b.likes.getD 0

/-- C3, delete half: whenever `DELETE /api/articles/x` succeeds, an
immediate `GET /api/articles/x` answers 404 and `GET /api/articles` serves
exactly the post-deletion store rows, none of which is article `x`. -/
def DeleteCoherence (db : DB) (cache : Cache) (x : String) : Prop :=
  (deleteArticle db cache x).2.2.status = 200 →
    (getArticleById (deleteArticle db cache x).1
        (deleteArticle db cache x).2.1 x).2 = .notFound ∧
    (getAllArticles (deleteArticle db cache x).1
        (deleteArticle db cache x).2.1).2.body = (deleteArticle db cache x).1.articles ∧
    ∀ a ∈ (getAllArticles (deleteArticle db cache x).1
        (deleteArticle db cache x).2.1).2.body, sqlIdMatch x a.article_id = false

/-- C4: a zero-rows-affected update or delete answers 404 and leaves every
cache entry and the store exactly as they were. -/
def ZeroAffectedUntouched (db : DB) (cache : Cache) (idStr : String)
    (b : ArticleBody) : Prop :=
  (putArticleRoute db cache idStr b).2.2.status = 404 ∧
  (putArticleRoute db cache idStr b).2.1 = cache ∧
  (putArticleRoute db cache idStr b).1 = db ∧
  (deleteArticle db cache idStr).2.2.status = 404 ∧
  (deleteArticle db cache idStr).2.1 = cache ∧
  (deleteArticle db cache idStr).1 = db

/-- C2 (amended): `GET /api/media/:id` on a cache miss serves the store's
rows mapped to the frontend shape with status 200 — an empty row set
yields `200 []`, not a 404. -/
def MediaLookup (db : DB) (cache : Cache) (idStr : String) : Prop :=
  (db.visuals.filter (fun v => v.article_id = strTrim idStr) = [] →
    (getMedia db cache idStr).2 = .okList []) ∧
  (∀ v vs, db.visuals.filter (fun v => v.article_id = strTrim idStr) = v :: vs →
    (getMedia db cache idStr).2 = .okList (mapVisualFields (v :: vs))) ∧
  (getMedia db cache idStr).2.status = 200

/-- C5: each read-article event increments the (user, keyword) counter by
one (creating it at 1), promotes the keyword into the interest set exactly
when the re-read counter equals 3, and hence three events insert the
keyword exactly once while a fourth does not duplicate it. -/
def EngagementPromotion (db : DB) (u : Nat) (k : String) : Prop :=
  (∀ d : DB, readCount (readOneKeyword d u k) u k
      = some ((readCount d u k).getD 0 + 1)) ∧
  (∀ d : DB, (readOneKeyword d u k).interests =
      (if (readCount d u k).getD 0 + 1 = 3 then insertIgnore d.interests (u, k)
       else d.interests)) ∧
  (readCount db u k = none → (u, k) ∉ db.interests →
    (readArticlePost (readArticlePost (readArticlePost db u "001"
        (some [k])).1 u "001" (some [k])).1 u "001"
        (some [k])).1.interests.count (u, k) = 1 ∧
    (readArticlePost (readArticlePost (readArticlePost (readArticlePost db u "001"
        (some [k])).1 u "001" (some [k])).1 u "001" (some [k])).1 u "001"
        (some [k])).1.interests.count (u, k) = 1)

/-- C6: a duplicate membership insert into interests, dislikes or
subscriptions leaves the store unchanged, still answers success, and a
pair absent beforehand ends with exactly one membership record. -/
def MembershipIdempotent (db : DB) (u : Nat) (t : String) : Prop :=
  ((postInterest (postInterest db u t).1 u t).1 = (postInterest db u t).1 ∧
    (postInterest (postInterest db u t).1 u t).2 = SimpleResp.success ∧
    ((u, t) ∉ db.interests →
      (postInterest (postInterest db u t).1 u t).1.interests.count (u, t) = 1)) ∧
  ((postDislike (postDislike db u t).1 u t).1 = (postDislike db u t).1 ∧
    (postDislike (postDislike db u t).1 u t).2 = SimpleResp.success ∧
    ((u, t) ∉ db.dislikes →
      (postDislike (postDislike db u t).1 u t).1.dislikes.count (u, t) = 1)) ∧
  ((postSubscription (postSubscription db u t).1 u t).1 = (postSubscription db u t).1 ∧
    (postSubscription (postSubscription db u t).1 u t).2 = SimpleResp.success ∧
    ((u, t) ∉ db.subscriptions →
      (postSubscription (postSubscription db u t).1 u t).1.subscriptions.count (u, t) = 1))

/-- C7: like counts never go negative across any request sequence, an
unlike at zero stores zero, and a like stores the old count plus one. -/
def LikeFloor (db : DB) (cache : Cache) : Prop :=
  (∀ reqs : List (String × String),
    ∀ a ∈ (processLikes db cache reqs).1.articles, 0 ≤ a.likes) ∧
  (∀ idStr : String, ∀ a : Article, ∀ rest : List Article,
    db.articles.filter
        (fun r => sqlIdMatch (padStart (strTrim idStr) 3 '0') r.article_id) = a :: rest →
      (a.likes = 0 →
        storedLikes (likeArticle db cache idStr "unlike").1
          (padStart (strTrim idStr) 3 '0') = some 0) ∧
      storedLikes (likeArticle db cache idStr "like").1
        (padStart (strTrim idStr) 3 '0') = some (a.likes + 1))

/-- C8: a registration that succeeds appends exactly one user row whose
role is `admin` when the user table was empty and `user` otherwise. -/
def FirstUserRole (db : DB) (r : RegisterReq) : Prop :=
  (register db r).1.users = db.users ++
    [{ id := db.nextUserId
       username := r.username
       email := strToLower r.email
       password := bcryptHash r.password
       country := r.country
       firstname := r.firstName
       lastname := r.lastName
       role := if db.users.length = 0 then "admin" else "user"
       biography := jsOrNullStr r.biography }] ∧
  (register db r).2 = .created db.nextUserId
    (if db.users.length = 0 then "admin" else "user")

/-- C9: a registration colliding case-insensitively on username or email
answers 400 with the two collision flags (each true exactly when that
field collides) and inserts nothing. -/
def DuplicateRejected (db : DB) (r : RegisterReq) : Prop :=
  (register db r).1 = db ∧
  (register db r).2 = .duplicate
      (if db.users.any (fun u => strToLower u.username = strToLower r.username)
        then "Username already exists" else "Email already exists")
      (db.users.any (fun u => strToLower u.username = strToLower r.username))
      (db.users.any (fun u => strToLower u.email = strToLower r.email)) ∧
  (register db r).2.status = 400

/-- C10: a password containing any character outside
`[A-Za-z0-9@$!%*?&]` makes registration answer 400 and store nothing. -/
def BadCharRejected (db : DB) (r : RegisterReq) : Prop :=
  (register db r).1 = db ∧ (register db r).2.status = 400

/-! ## Concrete instances for witnesses and counterexamples -/

def sampleArticle : Article :=
  { article_id := 1, headline_title := "Old title", short_desc := "old desc",
    article_content := "old content", city := "Rome", author := "bob",
    date := some "2024-01-01", category := "World", likes := 2 }

def sampleDB : DB :=
  { articles := [sampleArticle], visuals := [], users := [], nextUserId := 1,
    interests := [], dislikes := [], subscriptions := [], keywordReads := [] }

def sampleCache : Cache :=
  { allArticles := some [sampleArticle],
    articleById := [("article_001", sampleArticle)],
    visualsById := [("visuals_001", [])] }

def sampleBody : ArticleBody :=
  { title := some "New title", description := some "new desc",
    content := some "new content", city := some "Rome", author := some "bob",
    date := some "2024-02-02", category := some "World", likes := some 3,
    userId := none }

def aliceUser : User :=
  { id := 1, username := "alice", email := "a@x.com",
    password := "bcrypt(OldPass1!)", country := "IT", firstname := "Alice",
    lastname := "A", role := "admin", biography := none }

def userDB : DB :=
  { articles := [], visuals := [], users := [aliceUser], nextUserId := 2,
    interests := [], dislikes := [], subscriptions := [], keywordReads := [] }

def dupReq : RegisterReq :=
  { username := "Alice", email := "A@X.COM", password := "Abcdef1!",
    country := "FR", firstName := "Alice", lastName := "B", biography := none }

def freshReq : RegisterReq :=
  { username := "dana", email := "d@y.com", password := "Abcdef1!",
    country := "DE", firstName := "Dana", lastName := "D", biography := none }

def badPwReq : RegisterReq :=
  { username := "erin", email := "e@z.com", password := "Abcdef1!#",
    country := "ES", firstName := "Erin", lastName := "E", biography := none }

def c1Article : Article :=
  { article_id := 1, headline_title := "Old title", short_desc := "d",
    article_content := "c", city := "Rome", author := "bob",
    date := none, category := "World", likes := 0 }

def c1DB : DB :=
  { articles := [c1Article], visuals := [],
    users := [{ id := 5, username := "carol", email := "carol@x.com",
                password := "h", country := "US", firstname := "Carol",
                lastname := "C", role := "editor", biography := none }],
    nextUserId := 6, interests := [], dislikes := [], subscriptions := [],
    keywordReads := [] }

def c1Body : ArticleBody :=
  { title := some "Hacked", description := none, content := some "pwned",
    city := none, author := some "mallory", date := none, category := none,
    likes := some 0, userId := none }

/-! ## Helper lemmas -/

theorem lookupA_eraseA {α : Type} (l : List (String × α)) (k : String) :
    lookupA (eraseA l k) k = none := by
  induction l with
  | nil => rfl
  | cons p t ih =>
    by_cases h : p.1 = k
    · simpa [eraseA, h] using ih
    · simpa [eraseA, lookupA, h] using ih

theorem filter_map_of_pres {α : Type} (p : α → Bool) (f : α → α)
    (hf : ∀ x, p (f x) = p x) (l : List α) :
    (l.map f).filter p = (l.filter p).map f := by
  induction l with
  | nil => rfl
  | cons a t ih =>
    simp only [List.map_cons, List.filter_cons, hf a]
    cases h : p a <;> simp [h, ih]

theorem sqlToNat_cons_zero (l : List Char) (n : Nat) (h : sqlToNat ⟨l⟩ = some n) :
    sqlToNat ⟨'0' :: l⟩ = some n := by
  unfold sqlToNat at h ⊢
  split at h
  case isTrue hc =>
    simp only [Bool.and_eq_true, Bool.not_eq_eq_eq_not, Bool.not_true] at hc
    rw [if_pos]
    · simp only [Option.some.injEq] at h ⊢
      rw [List.foldl_cons]
      have h0 : (0 : Nat) * 10 + ('0'.toNat - 48) = 0 := by decide
      rw [h0]
      exact h
    · have hd : Char.isDigit '0' = true := by decide
      simp [List.all_cons, hd, hc.2]
  case isFalse => exact absurd h (by simp)

theorem sqlToNat_zeros_append (k : Nat) (s : String) (n : Nat)
    (h : sqlToNat s = some n) :
    sqlToNat ⟨List.replicate k '0' ++ s.data⟩ = some n := by
  induction k with
  | zero => simpa using h
  | succ m ih =>
    rw [List.replicate_succ, List.cons_append]
    exact sqlToNat_cons_zero _ n ih

theorem sqlToNat_padStart (s : String) (n : Nat) (h : sqlToNat s = some n) :
    sqlToNat (padStart s 3 '0') = some n :=
  sqlToNat_zeros_append (3 - s.length) s n h

theorem sqlIdMatch_padStart (s : String) (n : Nat) (h : sqlToNat s = some n)
    (aid : Nat) :
    sqlIdMatch (padStart s 3 '0') aid = sqlIdMatch s aid := by
  unfold sqlIdMatch
  rw [sqlToNat_padStart s n h, h]

theorem sqlIdMatch_true_iff (param : String) (aid : Nat) :
    sqlIdMatch param aid = true ↔ sqlToNat param = some aid := by
  simp [sqlIdMatch]

theorem mem_insertIgnore (l : List (Nat × String)) (x : Nat × String) :
    x ∈ insertIgnore l x := by
  unfold insertIgnore
  split
  · assumption
  · simp

theorem insertIgnore_of_mem (l : List (Nat × String)) (x : Nat × String)
    (h : x ∈ l) : insertIgnore l x = l := by
  unfold insertIgnore
  rw [if_pos h]

theorem insertIgnore_of_not_mem (l : List (Nat × String)) (x : Nat × String)
    (h : x ∉ l) : insertIgnore l x = l ++ [x] := by
  unfold insertIgnore
  rw [if_neg h]

theorem insertIgnore_idem (l : List (Nat × String)) (x : Nat × String) :
    insertIgnore (insertIgnore l x) x = insertIgnore l x :=
  insertIgnore_of_mem _ x (mem_insertIgnore l x)

theorem count_insertIgnore_of_not_mem (l : List (Nat × String)) (x : Nat × String)
    (h : x ∉ l) : (insertIgnore l x).count x = 1 := by
  rw [insertIgnore_of_not_mem l x h]
  simp [List.count_append, List.count_eq_zero.mpr h]

theorem readCountL_upsertRead (l : List ((Nat × String) × Nat)) (key : Nat × String) :
    readCountL (upsertRead l key) key = some ((readCountL l key).getD 0 + 1) := by
  induction l with
  | nil => simp [upsertRead, readCountL]
  | cons p t ih =>
    by_cases h : p.1 = key
    · simp [upsertRead, readCountL, h]
    · simp [upsertRead, readCountL, h, ih]

theorem filter_any_of_imp {α : Type} (l : List α) (p q : α → Bool)
    (h : ∀ x, q x = true → p x = true) : (l.filter p).any q = l.any q := by
  induction l with
  | nil => rfl
  | cons a t ih =>
    by_cases hp : p a = true
    · simp [List.filter_cons, hp, List.any_cons, ih]
    · have hq : q a = false := by
        cases hqa : q a
        · rfl
        · exact absurd (h a hqa) hp
      have hp' : p a = false := by
        cases hpa : p a
        · rfl
        · exact absurd hpa hp
      simp [List.filter_cons, hp', List.any_cons, hq, ih]

theorem passwordOk_eq_false_of_badChar (p : String)
    (h : ∃ c ∈ p.data, isAllowedPwChar c = false) : passwordOk p = false := by
  obtain ⟨c, hc, hbad⟩ := h
  unfold passwordOk
  have hall : p.data.all isAllowedPwChar = false := by
    rw [List.all_eq_false]
    exact ⟨c, hc, by simp [hbad]⟩
  simp [hall]

theorem jsOrInt_zero (x : Int) : jsOrInt x 0 = x := by
  unfold jsOrInt
  split <;> simp_all

theorem padStart_ne_empty (s : String) (c : Char) : padStart s 3 c ≠ "" := by
  intro h
  have hlen : s.length = s.data.length := rfl
  have h2 : (List.replicate (3 - s.length) c ++ s.data).length = 0 := by
    have hd : (padStart s 3 c).data = List.replicate (3 - s.length) c ++ s.data := rfl
    rw [← hd, h]
    rfl
  simp only [List.length_append, List.length_replicate] at h2
  omega

/-! ## Claim theorems -/

/-- C1 (code bug): `server.js` registers `PUT /api/articles/:id` twice and
Express dispatches to the first, unguarded registration, so a request with
no acting-user identifier at all still has its update applied and answered
200 — while the shadowed permission-checked registration of the same path
would have answered 403 Forbidden on the very same request. -/
theorem c1_unauthorized_update_applied :
    (putArticleRoute c1DB emptyCache "1" c1Body).2.2 =
      ⟨200, "Article updated successfully"⟩ ∧
    (putArticleRoute c1DB emptyCache "1" c1Body).1.articles =
      [applyBody c1Body c1Article] ∧
    (applyBody c1Body c1Article).headline_title = "Hacked" ∧
    (applyBody c1Body c1Article).author = "mallory" ∧
    (putArticle2 c1DB emptyCache "1" c1Body).2.2 = Put2Resp.forbidden := by
  refine ⟨rfl, ?_, rfl, rfl, rfl⟩
  rfl

/-- C2 counterexample: with no media row for article `7` in the store and
no cached entry, `GET /api/media/7` answers 200 with an empty array — not
the 404 with an error object that the claim states. -/
theorem c2_counterexample :
    (getMedia sampleDB emptyCache "7").2 = MediaResp.okList [] ∧
    (getMedia sampleDB emptyCache "7").2.status = 200 := by
  exact ⟨rfl, rfl⟩

/-- C2 (amended): on a cache miss, `GET /api/media/:id` answers 200 with
the store rows mapped to `{name, description, file_type, css_class,
filepath}` — the empty array when no row exists — never a 404. -/
theorem c2_media_lookup (db : DB) (cache : Cache) (idStr : String)
    (h1 : strTrim idStr ≠ "")
    (h2 : lookupA cache.visualsById ("visuals_" ++ strTrim idStr) = none) :
    MediaLookup db cache idStr := by
  unfold MediaLookup getMedia
  rw [if_neg h1, h2]
  refine ⟨?_, ?_, rfl⟩
  · intro hrows
    simp [hrows, mapVisualFields]
  · intro v vs hrows
    simp [hrows]

/-- Witness for C2 (amended) at a concrete store, cache and request. -/
theorem c2_media_lookup_witness : MediaLookup sampleDB emptyCache "7" :=
  c2_media_lookup sampleDB emptyCache "7" (by decide) rfl

/-- C4: when the store reports zero rows affected for an update-by-id or
delete-by-id, the route answers 404 and neither any cache entry nor the
store changes. -/
theorem c4_zero_affected_untouched (db : DB) (cache : Cache) (idStr : String)
    (b : ArticleBody)
    (h : db.articles.countP (fun a => sqlIdMatch idStr a.article_id) = 0) :
    ZeroAffectedUntouched db cache idStr b := by
  unfold ZeroAffectedUntouched putArticleRoute putArticle1 deleteArticle
  simp [h]

/-- Witness for C4: the store has only article 1, so the request for
article 5 affects zero rows. -/
theorem c4_witness : ZeroAffectedUntouched sampleDB sampleCache "5" sampleBody :=
  c4_zero_affected_untouched sampleDB sampleCache "5" sampleBody (by decide)

/-- C6: membership adds to interests, dislikes and subscriptions are
idempotent: a duplicate add is a successful no-op and an initially absent
pair ends with exactly one record. -/
theorem c6_membership_idempotent (db : DB) (u : Nat) (t : String)
    (hu : u ≠ 0) (ht : t ≠ "") : MembershipIdempotent db u t := by
  have hcond : ¬(u = 0 ∨ t = "") := by simp [hu, ht]
  unfold MembershipIdempotent postInterest postDislike postSubscription
  rw [if_neg hcond]
  refine ⟨⟨?_, ?_, ?_⟩, ⟨?_, ?_, ?_⟩, ⟨?_, ?_, ?_⟩⟩ <;>
    first
    | (intro hnot
       simp [if_neg hcond, insertIgnore_idem, count_insertIgnore_of_not_mem _ _ hnot])
    | simp [if_neg hcond, insertIgnore_idem]

/-- Witness for C6 at a concrete store, user and topic. -/
theorem c6_witness : MembershipIdempotent sampleDB 7 "sports" :=
  c6_membership_idempotent sampleDB 7 "sports" (by decide) (by decide)

/-- C5: a read-article event increments the (user, keyword) counter by one
(creating it at 1), promotes the keyword into the interest set exactly when
the re-read counter equals 3, and three events therefore insert the keyword
exactly once while a fourth does not duplicate it. -/
theorem c5_engagement_promotion (db : DB) (u : Nat) (k : String) (hu : u ≠ 0) :
    EngagementPromotion db u k := by
  have hstep1 : ∀ d : DB, readCount (readOneKeyword d u k) u k
      = some ((readCount d u k).getD 0 + 1) := by
    intro d
    simp [readCount, readOneKeyword, readCountL_upsertRead]
  have hstep2 : ∀ d : DB, (readOneKeyword d u k).interests =
      (if (readCount d u k).getD 0 + 1 = 3 then insertIgnore d.interests (u, k)
       else d.interests) := by
    intro d
    simp [readCount, readOneKeyword, readCountL_upsertRead]
  refine ⟨hstep1, hstep2, ?_⟩
  intro h0 hni
  have hpost : ∀ d : DB, (readArticlePost d u "001" (some [k])).1 = readOneKeyword d u k := by
    intro d
    have hc : ¬(u = 0 ∨ ("001" : String) = "" ∨ (some [k] : Option (List String)).isNone = true) := by
      simp [hu]
    unfold readArticlePost
    rw [if_neg hc]
    simp
  rw [hpost, hpost, hpost, hpost]
  have rc1 : readCount (readOneKeyword db u k) u k = some 1 := by
    rw [hstep1 db, h0]
    rfl
  have ri1 : (readOneKeyword db u k).interests = db.interests := by
    rw [hstep2 db, h0]
    simp
  have rc2 : readCount (readOneKeyword (readOneKeyword db u k) u k) u k = some 2 := by
    rw [hstep1 _, rc1]
    rfl
  have ri2 : (readOneKeyword (readOneKeyword db u k) u k).interests = db.interests := by
    rw [hstep2 _, rc1, ri1]
    simp
  have rc3 : readCount (readOneKeyword (readOneKeyword (readOneKeyword db u k) u k) u k) u k
      = some 3 := by
    rw [hstep1 _, rc2]
    rfl
  have ri3 : (readOneKeyword (readOneKeyword (readOneKeyword db u k) u k) u k).interests
      = insertIgnore db.interests (u, k) := by
    rw [hstep2 _, rc2, ri2]
    simp
  have ri4 : (readOneKeyword (readOneKeyword (readOneKeyword (readOneKeyword db u k) u k) u k) u k).interests
      = insertIgnore db.interests (u, k) := by
    rw [hstep2 _, rc3, ri3]
    simp
  rw [ri3, ri4]
  exact ⟨count_insertIgnore_of_not_mem _ _ hni, count_insertIgnore_of_not_mem _ _ hni⟩

/-- Witness for C5 at a concrete store, user and keyword. -/
theorem c5_witness : EngagementPromotion sampleDB 7 "ai" :=
  c5_engagement_promotion sampleDB 7 "ai" (by decide)

/-- C8: a successful registration appends exactly one user row, with role
`admin` when the user table was empty and role `user` otherwise. -/
theorem c8_first_user_admin (db : DB) (r : RegisterReq)
    (h : (register db r).2.status = 201) : FirstUserRole db r := by
  by_cases h1 : (r.username = "" ∨ r.email = "" ∨ r.password = "" ∨ r.country = "" ∨
      r.firstName = "" ∨ r.lastName = "")
  · unfold register at h
    rw [if_pos h1] at h
    simp [RegisterResp.status] at h
  · by_cases h2 : passwordOk r.password = true
    · by_cases h3 : 0 < (dupFilter db r).length
      · unfold register at h
        rw [if_neg h1, if_neg (by simp [h2]), if_pos h3] at h
        simp [RegisterResp.status] at h
      · unfold FirstUserRole register
        rw [if_neg h1, if_neg (by simp [h2]), if_neg h3]
        exact ⟨by simp [newUserRow, assignedRole], by simp [assignedRole]⟩
    · have h2' : passwordOk r.password = false := by
        cases hp : passwordOk r.password
        · rfl
        · exact absurd hp h2
      unfold register at h
      rw [if_neg h1, if_pos (by simp [h2'])] at h
      simp [RegisterResp.status] at h

/-- Witness for C8: registering against the empty user table yields a lone
row with role admin. -/
theorem c8_witness : FirstUserRole sampleDB freshReq :=
  c8_first_user_admin sampleDB freshReq (by decide)

/-- C9: an otherwise-valid registration colliding case-insensitively on
username or email answers 400 with collision flags that are true exactly
for the colliding field, and inserts no user row. -/
theorem c9_duplicate_rejected (db : DB) (r : RegisterReq)
    (hu : r.username ≠ "") (he : r.email ≠ "") (hp : r.password ≠ "")
    (hc : r.country ≠ "") (hf : r.firstName ≠ "") (hl : r.lastName ≠ "")
    (hpw : passwordOk r.password = true)
    (hdup : ∃ u ∈ db.users, strToLower u.username = strToLower r.username ∨
        strToLower u.email = strToLower r.email) :
    DuplicateRejected db r := by
  have h1 : ¬(r.username = "" ∨ r.email = "" ∨ r.password = "" ∨ r.country = "" ∨
      r.firstName = "" ∨ r.lastName = "") := by
    simp [hu, he, hp, hc, hf, hl]
  have h3 : 0 < (dupFilter db r).length := by
    obtain ⟨u, hm, hor⟩ := hdup
    have hmem : u ∈ dupFilter db r := by
      unfold dupFilter
      exact List.mem_filter.mpr ⟨hm, by simpa using hor⟩
    exact List.length_pos.mpr (List.ne_nil_of_mem hmem)
  have hany1 : (dupFilter db r).any (fun u => strToLower u.username = strToLower r.username)
      = db.users.any (fun u => strToLower u.username = strToLower r.username) := by
    unfold dupFilter
    refine filter_any_of_imp _ _ _ (fun x hx => ?_)
    simp only [decide_eq_true_eq] at hx ⊢
    exact Or.inl hx
  have hany2 : (dupFilter db r).any (fun u => strToLower u.email = strToLower r.email)
      = db.users.any (fun u => strToLower u.email = strToLower r.email) := by
    unfold dupFilter
    refine filter_any_of_imp _ _ _ (fun x hx => ?_)
    simp only [decide_eq_true_eq] at hx ⊢
    exact Or.inr hx
  unfold DuplicateRejected register
  rw [if_neg h1, if_neg (by simp [hpw]), if_pos h3, hany1, hany2]
  exact ⟨rfl, rfl, rfl⟩

/-- Witness for C9: `Alice` / `A@X.COM` collides case-insensitively with
the stored `alice` / `a@x.com` user and both flags come out true. -/
theorem c9_witness : DuplicateRejected userDB dupReq :=
  c9_duplicate_rejected userDB dupReq (by decide) (by decide) (by decide)
    (by decide) (by decide) (by decide) (by decide)
    ⟨aliceUser, by decide, by decide⟩

/-- C10: a registration whose password contains any character outside the
class `[A-Za-z0-9@$!%*?&]` answers 400 and stores nothing. -/
theorem c10_password_charset (db : DB) (r : RegisterReq)
    (hbad : ∃ c ∈ r.password.data, isAllowedPwChar c = false) :
    BadCharRejected db r := by
  unfold BadCharRejected
  by_cases h1 : (r.username = "" ∨ r.email = "" ∨ r.password = "" ∨ r.country = "" ∨
      r.firstName = "" ∨ r.lastName = "")
  · unfold register
    rw [if_pos h1]
    exact ⟨rfl, rfl⟩
  · have h2 : passwordOk r.password = false := passwordOk_eq_false_of_badChar _ hbad
    unfold register
    rw [if_neg h1, if_pos (by simp [h2])]
    exact ⟨rfl, rfl⟩

/-- Witness for C10: `Abcdef1!#` is 9 characters long with lowercase,
uppercase, a digit and `!` from the fixed set, yet `#` falls outside the
class and registration is rejected with nothing stored. -/
theorem c10_witness : BadCharRejected sampleDB badPwReq :=
  c10_password_charset sampleDB badPwReq ⟨'#', by decide, by decide⟩

theorem likeNewCount_nonneg (action : String) (likes : Int) (h : 0 ≤ likes) :
    0 ≤ likeNewCount action likes := by
  unfold likeNewCount
  split_ifs <;> omega

theorem likeArticle_preserves_nonneg (db : DB) (cache : Cache) (idStr action : String)
    (hinv : ∀ a ∈ db.articles, 0 ≤ a.likes) :
    ∀ a ∈ (likeArticle db cache idStr action).1.articles, 0 ≤ a.likes := by
  simp only [likeArticle]
  split
  · exact hinv
  · split
    · exact hinv
    · next a0 tail heq =>
      intro x hx
      dsimp only at hx
      simp only [List.mem_map] at hx
      obtain ⟨b, hb, rfl⟩ := hx
      have ha0 : a0 ∈ db.articles :=
        List.mem_of_mem_filter (heq ▸ List.mem_cons_self a0 tail)
      have hl0 : 0 ≤ jsOrInt a0.likes 0 := by
        rw [jsOrInt_zero]
        exact hinv a0 ha0
      by_cases hmb : sqlIdMatch (padStart (strTrim idStr) 3 '0') b.article_id = true
      · simp only [hmb, if_true]
        exact likeNewCount_nonneg action _ hl0
      · simp only [hmb, if_false]
        exact hinv b hb

theorem processLikes_preserves_nonneg (reqs : List (String × String)) :
    ∀ db cache, (∀ a ∈ db.articles, 0 ≤ a.likes) →
      ∀ a ∈ (processLikes db cache reqs).1.articles, 0 ≤ a.likes := by
  induction reqs with
  | nil =>
    intro db cache h
    exact h
  | cons r t ih =>
    intro db cache h
    have h1 := likeArticle_preserves_nonneg db cache r.1 r.2 h
    have hstep : processLikes db cache (r :: t)
        = processLikes (likeArticle db cache r.1 r.2).1 (likeArticle db cache r.1 r.2).2.1 t := rfl
    rw [hstep]
    exact ih _ _ h1

theorem likeArticle_storedLikes (db : DB) (cache : Cache) (idStr action : String)
    (hact : action = "like" ∨ action = "unlike")
    (a : Article) (rest : List Article)
    (heq : db.articles.filter
        (fun r => sqlIdMatch (padStart (strTrim idStr) 3 '0') r.article_id) = a :: rest) :
    storedLikes (likeArticle db cache idStr action).1 (padStart (strTrim idStr) 3 '0')
      = some (likeNewCount action (jsOrInt a.likes 0)) := by
  have hguard : ¬(padStart (strTrim idStr) 3 '0' = "" ∨
      ¬(action = "like" ∨ action = "unlike")) := by
    simp [padStart_ne_empty, hact]
  have hpa : sqlIdMatch (padStart (strTrim idStr) 3 '0') a.article_id = true := by
    have hmem : a ∈ db.articles.filter
        (fun r => sqlIdMatch (padStart (strTrim idStr) 3 '0') r.article_id) :=
      heq ▸ List.mem_cons_self a rest
    exact (List.mem_filter.mp hmem).2
  have hf : ∀ x : Article,
      sqlIdMatch (padStart (strTrim idStr) 3 '0')
        (if sqlIdMatch (padStart (strTrim idStr) 3 '0') x.article_id = true
          then { x with likes := likeNewCount action (jsOrInt a.likes 0) }
          else x).article_id
      = sqlIdMatch (padStart (strTrim idStr) 3 '0') x.article_id := by
    intro x
    by_cases hx : sqlIdMatch (padStart (strTrim idStr) 3 '0') x.article_id = true <;>
      simp [hx]
  simp only [likeArticle]
  rw [if_neg hguard, heq]
  unfold storedLikes
  dsimp only
  rw [filter_map_of_pres _ _ hf db.articles, heq]
  simp [hpa]

/-- C7: for every sequence of like/unlike requests every stored like count
stays nonnegative; an unlike of an article at zero stores zero; a like
stores the old count plus one. -/
theorem c7_like_floor (db : DB) (cache : Cache)
    (hinv : ∀ a ∈ db.articles, 0 ≤ a.likes) : LikeFloor db cache := by
  refine ⟨fun reqs => processLikes_preserves_nonneg reqs db cache hinv, ?_⟩
  intro idStr a rest heq
  constructor
  · intro h0
    rw [likeArticle_storedLikes db cache idStr "unlike" (Or.inr rfl) a rest heq, h0]
    decide
  · rw [likeArticle_storedLikes db cache idStr "like" (Or.inl rfl) a rest heq, jsOrInt_zero]
    simp [likeNewCount]

/-- Witness for C7 at a concrete store and cache. -/
theorem c7_witness : LikeFloor sampleDB sampleCache :=
  c7_like_floor sampleDB sampleCache (by decide)

/-- C3: after a successful `PUT /api/articles/x` a subsequent
`GET /api/articles/x` serves the post-mutation row, and after a successful
`DELETE /api/articles/x` a subsequent `GET /api/articles/x` answers 404
while `GET /api/articles` serves exactly the post-deletion rows, which
exclude article `x`. -/
theorem c3_cache_coherence (db : DB) (cache : Cache) (x : String) (b : ArticleBody)
    (hx : strTrim x = x) : PutCoherence db cache x b ∧ DeleteCoherence db cache x := by
  by_cases hm : db.articles.countP (fun a => sqlIdMatch x a.article_id) = 0
  · constructor
    · intro hst
      exfalso
      simp only [putArticleRoute, putArticle1] at hst
      rw [if_pos hm] at hst
      simp at hst
    · intro hst
      exfalso
      simp only [deleteArticle] at hst
      rw [if_pos hm] at hst
      simp at hst
  · have hne : db.articles.filter (fun a => sqlIdMatch x a.article_id) ≠ [] := by
      intro hnil
      rw [List.countP_eq_length_filter, hnil] at hm
      exact hm rfl
    obtain ⟨a0, r0, heq0⟩ : ∃ a0 r0,
        db.articles.filter (fun a => sqlIdMatch x a.article_id) = a0 :: r0 := by
      cases hfe : db.articles.filter (fun a => sqlIdMatch x a.article_id) with
      | nil => exact absurd hfe hne
      | cons a t => exact ⟨a, t, rfl⟩
    have hmem0 : a0 ∈ db.articles.filter (fun a => sqlIdMatch x a.article_id) := by
      rw [heq0]
      exact List.mem_cons_self a0 r0
    have hp0 : sqlIdMatch x a0.article_id = true := (List.mem_filter.mp hmem0).2
    have hn : sqlToNat x = some a0.article_id := by
      simpa [sqlIdMatch] using hp0
    have hpp : ∀ aid, sqlIdMatch (padStart x 3 '0') aid = sqlIdMatch x aid :=
      sqlIdMatch_padStart x a0.article_id hn
    have hfuneq : (fun r : Article => sqlIdMatch (padStart x 3 '0') r.article_id)
        = fun r : Article => sqlIdMatch x r.article_id :=
      funext fun r => hpp r.article_id
    constructor
    · intro _
      have hroute : putArticleRoute db cache x b =
          ({ db with
              articles := db.articles.map
                (fun a => if sqlIdMatch x a.article_id = true then applyBody b a else a) },
           { cache with
              allArticles := none,
              articleById := eraseA cache.articleById ("article_" ++ padStart x 3 '0') },
           ⟨200, "Article updated successfully"⟩) := by
        simp only [putArticleRoute, putArticle1]
        rw [if_neg hm]
      have hf0 : ∀ z : Article,
          (fun r : Article => sqlIdMatch x r.article_id)
            ((fun a => if sqlIdMatch x a.article_id = true then applyBody b a else a) z)
          = (fun r : Article => sqlIdMatch x r.article_id) z := by
        intro z
        by_cases hz : sqlIdMatch x z.article_id = true
        · simp [hz, applyBody]
        · simp [hz]
      have hmain : (db.articles.map
            (fun a => if sqlIdMatch x a.article_id = true then applyBody b a else a)).filter
            (fun r => sqlIdMatch (padStart x 3 '0') r.article_id)
          = applyBody b a0 :: r0.map
              (fun a => if sqlIdMatch x a.article_id = true then applyBody b a else a) := by
        rw [hfuneq, filter_map_of_pres _ _ hf0 db.articles, heq0]
        simp [hp0]
      have hget : (getArticleById
          { db with
            articles := db.articles.map
              (fun a => if sqlIdMatch x a.article_id = true then applyBody b a else a) }
          { cache with
            allArticles := none,
            articleById := eraseA cache.articleById ("article_" ++ padStart x 3 '0') } x).2
          = ArticleResp.found (mapArticleFields (applyBody b a0)) := by
        simp only [getArticleById, hx, lookupA_eraseA]
        rw [hmain]
      rw [hroute]
      exact ⟨applyBody b a0, _, hmain, hget, rfl, rfl, rfl, rfl, rfl, rfl, rfl, rfl⟩
    · intro _
      have hroute2 : deleteArticle db cache x =
          ({ db with
              articles := db.articles.filter (fun a => !sqlIdMatch x a.article_id) },
           { cache with
              allArticles := none,
              articleById := eraseA cache.articleById ("article_" ++ padStart x 3 '0'),
              visualsById := eraseA cache.visualsById ("visuals_" ++ padStart x 3 '0') },
           ⟨200, "Article deleted successfully"⟩) := by
        simp only [deleteArticle]
        rw [if_neg hm]
      have hnilf : (db.articles.filter (fun a => !sqlIdMatch x a.article_id)).filter
          (fun r => sqlIdMatch (padStart x 3 '0') r.article_id) = [] := by
        rw [hfuneq]
        refine List.filter_eq_nil_iff.mpr ?_
        intro r hr
        have h2 := (List.mem_filter.mp hr).2
        simp only [Bool.not_eq_true'] at h2
        simp [h2]
      have hget2 : (getArticleById
          { db with
            articles := db.articles.filter (fun a => !sqlIdMatch x a.article_id) }
          { cache with
            allArticles := none,
            articleById := eraseA cache.articleById ("article_" ++ padStart x 3 '0'),
            visualsById := eraseA cache.visualsById ("visuals_" ++ padStart x 3 '0') } x).2
          = ArticleResp.notFound := by
        simp only [getArticleById, hx, lookupA_eraseA]
        rw [hnilf]
      rw [hroute2]
      refine ⟨hget2, by simp [getAllArticles], ?_⟩
      intro a ha
      have ha2 : a ∈ db.articles.filter (fun r => !sqlIdMatch x r.article_id) := ha
      have h2 := (List.mem_filter.mp ha2).2
      simpa using h2

/-- Witness for C3: a concrete store and request where both the update and
the delete succeed, discharging the hypotheses of the coherence theorem. -/
theorem c3_witness :
    (putArticleRoute sampleDB sampleCache "1" sampleBody).2.2.status = 200 ∧
    (deleteArticle sampleDB sampleCache "1").2.2.status = 200 ∧
    (PutCoherence sampleDB sampleCache "1" sampleBody ∧
      DeleteCoherence sampleDB sampleCache "1") :=
  ⟨by decide, by decide,
    c3_cache_coherence sampleDB sampleCache "1" sampleBody (by decide)⟩

end NewsServer
